import Mathlib

/-!
# Text viewer: the open-file flow and the application shell

A shallow embedding of `text-viewer-window.c` and `text-viewer-application.c`.
The two C files are glue over GLib/GTK.  The toolkit calls they make are
modelled by their documented contracts (first part of the file); the
functions of the repository are then transcribed statement by statement over
those primitives (second part); the theorems come last.

Bytes are natural numbers (a byte is a value below 256), text held by the
text buffer is a list of Unicode code points, C strings are Lean strings and
a nullable `char *` is an `Option String`.
-/

namespace TextViewer

/-! ## C integer conversions -/

/-- Value obtained when a `gsize` is passed where a `gssize` (signed, 64 bit)
is expected, as in the second argument of `g_utf8_validate`. -/
def gsize_to_gssize (n : Nat) : Int :=
  if n % 18446744073709551616 < 9223372036854775808 then
    ((n % 18446744073709551616 : Nat) : Int)
  else ((n % 18446744073709551616 : Nat) : Int) - 18446744073709551616

/-- Value obtained when a `gsize` is passed where an `int` (signed, 32 bit)
is expected, as in the third argument of `gtk_text_buffer_set_text`. -/
def gsize_to_int (n : Nat) : Int :=
  if n % 4294967296 < 2147483648 then ((n % 4294967296 : Nat) : Int)
  else ((n % 4294967296 : Nat) : Int) - 4294967296

/-- C `strlen`: number of bytes before the first NUL of the memory `s`. -/
def strlen (s : List Nat) : Nat :=
  (s.takeWhile (fun b => b != 0)).length

/-! ## UTF-8 -/

/-- Continuation byte `10xxxxxx`. -/
def isCont (b : Nat) : Bool :=
  decide (128 ≤ b) && decide (b ≤ 191)

/-- Decoder of UTF-8 (Unicode, table 3-7 of well-formed byte sequences): the
code points encoded by the bytes, or `none` when the bytes are not
well-formed UTF-8 (stray or missing continuation byte, overlong form,
surrogate, value above U+10FFFF, or a value that is not a byte). -/
def utf8Decode : List Nat → Option (List Nat)
  | [] => some []
  | b0 :: rest =>
    if b0 < 128 then
      (utf8Decode rest).map (List.cons b0)
    else
      match rest with
      | [] => none
      | b1 :: rest1 =>
        if 194 ≤ b0 ∧ b0 ≤ 223 then
          if isCont b1 then
            (utf8Decode rest1).map (List.cons ((b0 - 192) * 64 + (b1 - 128)))
          else none
        else
          match rest1 with
          | [] => none
          | b2 :: rest2 =>
            if 224 ≤ b0 ∧ b0 ≤ 239 then
              if isCont b1 ∧ isCont b2 ∧ (b0 = 224 → 160 ≤ b1) ∧ (b0 = 237 → b1 ≤ 159) then
                (utf8Decode rest2).map
                  (List.cons ((b0 - 224) * 4096 + (b1 - 128) * 64 + (b2 - 128)))
              else none
            else
              match rest2 with
              | [] => none
              | b3 :: rest3 =>
                if 240 ≤ b0 ∧ b0 ≤ 244 ∧ isCont b1 ∧ isCont b2 ∧ isCont b3
                    ∧ (b0 = 240 → 144 ≤ b1) ∧ (b0 = 244 → b1 ≤ 143) then
                  (utf8Decode rest3).map
                    (List.cons ((b0 - 240) * 262144 + (b1 - 128) * 4096
                      + (b2 - 128) * 64 + (b3 - 128)))
                else none

/-- The bytes are well-formed UTF-8. -/
def validUtf8 (bytes : List Nat) : Bool :=
  (utf8Decode bytes).isSome

/-- GLib `g_utf8_validate (str, max_len, NULL)` on the memory `str`.  With a
negative `max_len` the text is taken to be NUL-terminated; otherwise exactly
`max_len` bytes are checked and, as GLib documents, the result is FALSE when
any of those bytes is NUL. -/
def g_utf8_validate (str : List Nat) (max_len : Int) : Bool :=
  if max_len < 0 then
    validUtf8 (str.takeWhile (fun b => b != 0))
  else
    let p := str.take max_len.toNat
    decide (p.length = max_len.toNat) && !(p.contains 0) && validUtf8 p

/-! ## GLib objects -/

/-- GLib `GError`: only the message is read by the program. -/
structure GError where
  message : String
  deriving DecidableEq, Repr

/-- GLib `GFileInfo` as returned for the attribute list
`"standard::display-name"`: the attribute is a nullable string. -/
structure GFileInfo where
  display_name : Option String
  deriving DecidableEq, Repr

/-- GLib `GFile`: `path` is the path of the location (the local path, or the
path part of a URI such as `sftp://host/dir/name`); `query_info` is the value
of `g_file_query_info (file, "standard::display-name", ...)`, `none` for NULL
(the query failed); `is_native` tells whether the location has a local path
(`sftp://` and `resource://` locations have none). -/
structure GFile where
  path : String
  query_info : Option GFileInfo
  is_native : Bool
  deriving DecidableEq, Repr

/-- Successful outcome of `g_file_load_contents_finish`: the bytes of the file
(`contents`); `lenght` is their number.  GLib stores the bytes in one heap
block followed by a NUL terminator that is not counted in the length, so the
length is below `G_MAXSSIZE = 2^63`. -/
structure Contents where
  data : List Nat
  size_ok : data.length < 9223372036854775808

/-- Number of bytes of the loaded contents (the `gsize lenght` out-parameter). -/
def Contents.lenght (c : Contents) : Nat := c.data.length

/-- Memory the `contents` pointer refers to: the bytes, then the terminator. -/
def Contents.mem (c : Contents) : List Nat := c.data ++ [0]

/-- GIO `GAsyncResult` of `g_file_load_contents_async`, as seen through
`g_file_load_contents_finish`: the contents, or the error that is set. -/
abbrev GAsyncResult := Except GError Contents

/-- GLib `g_file_load_contents_finish`. -/
def g_file_load_contents_finish (_file : GFile) (result : GAsyncResult) :
    Except GError Contents :=
  result

/-- GLib `g_file_query_info` for `"standard::display-name"`. -/
def g_file_query_info (file : GFile) : Option GFileInfo :=
  file.query_info

/-- GLib `g_file_info_get_attribute_string (info, "standard::display-name")`. -/
def g_file_info_get_attribute_string (info : GFileInfo) : Option String :=
  info.display_name

/-- GLib `g_strdup`: a copy of the string, NULL for NULL. -/
def g_strdup (s : Option String) : Option String := s

/-- GLib `g_file_peek_path`: the local path, NULL when the location has
none. -/
def g_file_peek_path (file : GFile) : Option String :=
  if file.is_native then some file.path else none

/-- The conversion `%s` of the C library: the string, `(null)` for NULL. -/
def printf_s (arg : Option String) : String :=
  match arg with
  | some str => str
  | none => "(null)"

/-- Console charset as `g_get_console_charset` reports it: whether it is
UTF-8 and, when it is not, which characters it can represent. -/
structure Charset where
  utf8 : Bool
  has_char : Char → Bool

/-- UTF-8 console. -/
def Charset.UTF8 : Charset := { utf8 := true, has_char := fun _ => true }

/-- GLib `strdup_convert` on a valid UTF-8 string:
`g_convert_with_fallback (string, -1, charset, "UTF-8", "?", ...)`, every
character the charset cannot represent becomes `?`. -/
def strdup_convert (string : String) (charset : Charset) : String :=
  String.mk (string.data.map (fun c => if charset.has_char c then c else '?'))

/-- GLib `print_string`, the default print handler: what reaches the stream
is the string itself on a UTF-8 console, its conversion to the console
charset otherwise. -/
def print_string (charset : Charset) (string : String) : String :=
  if charset.utf8 then string else strdup_convert string charset

/-- GLib `g_path_get_basename`: the last component of the file name, trailing
separators dropped; `"."` for the empty name and `"/"` for a name made of
separators only. -/
def g_path_get_basename (file_name : String) : String :=
  if file_name.data = [] then "."
  else
    let r := file_name.data.reverse.dropWhile (fun c => c == '/')
    if r = [] then "/"
    else String.mk (r.takeWhile (fun c => c != '/')).reverse

/-- GLib `g_file_get_basename`: the last component of the path of the
location. -/
def g_file_get_basename (file : GFile) : Option String :=
  some (g_path_get_basename file.path)

/-! ## GTK objects -/

/-- GTK `GtkTextBuffer`: the characters it holds and the offset (in
characters) of the insertion mark. -/
structure GtkTextBuffer where
  text : List Nat
  cursor : Nat
  deriving DecidableEq, Repr

/-- GTK `gtk_text_buffer_set_text (buffer, text, len)`, `len` an `int`: a
negative `len` is replaced by `strlen (text)` (stored back in the `int`), the
old contents are deleted, and when `len` is positive the first `len` bytes of
`text`, which must be valid UTF-8, are inserted at the start; the insertion
mark ends after the inserted text. -/
def gtk_text_buffer_set_text (_buffer : GtkTextBuffer) (text : List Nat) (len : Int) :
    GtkTextBuffer :=
  let len1 := if len < 0 then gsize_to_int (strlen text) else len
  if 0 < len1 ∧ g_utf8_validate text len1 = true then
    match utf8Decode (text.take len1.toNat) with
    | some chars => { text := chars, cursor := chars.length }
    | none => { text := [], cursor := 0 }
  else { text := [], cursor := 0 }

/-- GTK `gtk_text_buffer_get_start_iter`: the iterator at offset 0. -/
def gtk_text_buffer_get_start_iter (_buffer : GtkTextBuffer) : Nat := 0

/-- GTK `gtk_text_buffer_place_cursor`. -/
def gtk_text_buffer_place_cursor (buffer : GtkTextBuffer) (iter : Nat) : GtkTextBuffer :=
  { buffer with cursor := iter }

/-- GTK `GTK_RESPONSE_ACCEPT`. -/
def GTK_RESPONSE_ACCEPT : Int := -3

/-- GTK `GTK_RESPONSE_CANCEL`. -/
def GTK_RESPONSE_CANCEL : Int := -6

/-- GTK `GtkFileChooserNative`, the fields the program sets or reads.  `file`
is what `gtk_file_chooser_get_file` returns (the current selection). -/
structure GtkFileChooserNative where
  id : Nat
  title : String
  accept_label : String
  cancel_label : String
  modal : Bool
  visible : Bool
  file : Option GFile
  deriving DecidableEq, Repr

/-- GTK `gtk_file_chooser_native_new (title, parent, GTK_FILE_CHOOSER_ACTION_OPEN,
accept_label, cancel_label)`: a dialog that is not yet shown, with the
defaults of `GtkNativeDialog` (`modal` is FALSE) and nothing selected. -/
def gtk_file_chooser_native_new (id : Nat) (title accept_label cancel_label : String) :
    GtkFileChooserNative :=
  { id := id, title := title, accept_label := accept_label, cancel_label := cancel_label,
    modal := false, visible := false, file := none }

/-- GTK `gtk_native_dialog_show`. -/
def gtk_native_dialog_show (native : GtkFileChooserNative) : GtkFileChooserNative :=
  { native with visible := true }

/-- GTK `gtk_file_chooser_get_file`. -/
def gtk_file_chooser_get_file (chooser : GtkFileChooserNative) : Option GFile :=
  chooser.file

/-! ## `text-viewer-window.c` -/

/-- The instance struct `_TextViewerWindow`: the title of the parent
`GtkWindow` and the buffer of the template child `main_text_view`. -/
structure TextViewerWindow where
  title : Option String
  main_text_view : GtkTextBuffer
  deriving DecidableEq, Repr

/-- GTK `gtk_text_view_get_buffer (self->main_text_view)`. -/
def gtk_text_view_get_buffer (self : TextViewerWindow) : GtkTextBuffer :=
  self.main_text_view

/-- GTK `gtk_window_set_title`. -/
def gtk_window_set_title (self : TextViewerWindow) (title : Option String) :
    TextViewerWindow :=
  { self with title := title }

/-- State the window code acts on: the window itself, what has reached the
error stream, the file dialogs that are alive, the asynchronous loads that
were started and have not completed, the number of dialogs made so far, and
the charset of the console the process runs on. -/
structure State where
  self : TextViewerWindow
  err : List String
  dialogs : List GtkFileChooserNative
  loads : List GFile
  created : Nat
  console : Charset

/-- GLib `g_printerr`: the formatted message goes through `print_string` to
the error stream. -/
def g_printerr (msg : String) (s : State) : State :=
  { s with err := s.err ++ [print_string s.console msg] }

/-- The message formatted when the read failed (lines 92-94). -/
def read_failure_message (path : Option String) (message : String) : String :=
  "Unable to open ´´" ++ printf_s path ++ "´´: " ++ message ++ "\n"

/-- The message formatted when the contents are rejected by `g_utf8_validate`
(lines 101-103). -/
def not_utf8_message (path : Option String) : String :=
  "Unable to load the contents of ´´" ++ printf_s path ++ "´´: "
    ++ "the file is not encoded with UTF-8\n"

/-- The display name computed by `open_file_complete` (lines 70-87). -/
def resolve_display_name (file : GFile) : Option String :=
  match g_file_query_info file with
  | some info => g_strdup (g_file_info_get_attribute_string info)
  | none => g_file_get_basename file

/-- The callback `open_file_complete (source_object, result, self)`. -/
def open_file_complete (file : GFile) (result : GAsyncResult) (s : State) : State :=
  let loaded := g_file_load_contents_finish file result
  let display_name := resolve_display_name file
  match loaded with
  | .error error =>
    g_printerr (read_failure_message (g_file_peek_path file) error.message) s
  | .ok contents =>
    if g_utf8_validate contents.mem (gsize_to_gssize contents.lenght) = false then
      g_printerr (not_utf8_message (g_file_peek_path file)) s
    else
      let buffer := gtk_text_view_get_buffer s.self
      let buffer := gtk_text_buffer_set_text buffer contents.mem (gsize_to_int contents.lenght)
      let start := gtk_text_buffer_get_start_iter buffer
      let buffer := gtk_text_buffer_place_cursor buffer start
      { s with self := gtk_window_set_title { s.self with main_text_view := buffer } display_name }

/-- The function `open_file (self, file)`: `g_file_load_contents_async` starts
a load of the file (it returns at once when the file is NULL). -/
def open_file (s : State) (file : Option GFile) : State :=
  match file with
  | some f => { s with loads := s.loads ++ [f] }
  | none => s

/-- GObject `g_object_unref (native)` on the last reference: the dialog is
gone. -/
def g_object_unref (native : GtkFileChooserNative) (s : State) : State :=
  { s with dialogs := s.dialogs.filter (fun d => d.id != native.id) }

/-- The signal handler `on_open_response (native, response, self)`. -/
def on_open_response (native : GtkFileChooserNative) (response : Int) (s : State) : State :=
  let s1 :=
    if response = GTK_RESPONSE_ACCEPT then
      let file := gtk_file_chooser_get_file native
      open_file s file
    else s
  g_object_unref native s1

/-- The action handler `text_viewer_window__open_file_dialog`. -/
def text_viewer_window__open_file_dialog (s : State) : State :=
  let native := gtk_file_chooser_native_new s.created "Open File" "_Open" "_Cancel"
  let native := gtk_native_dialog_show native
  { s with dialogs := s.dialogs ++ [native], created := s.created + 1 }

/-- Events the toolkit delivers to the window: the `open` action is
activated, the dialog `id` emits `response` (with `chosen` selected), the
pending load number `index` completes with `result`. -/
inductive Event where
  | open_action
  | response (id : Nat) (response : Int) (chosen : Option GFile)
  | load_done (index : Nat) (result : GAsyncResult)

/-- A dialog that is shown modally keeps the window from receiving input. -/
def input_blocked (s : State) : Bool :=
  s.dialogs.any (fun d => d.modal && d.visible)

/-- One turn of the main loop: the handler connected to the event runs, or
`none` when the toolkit cannot deliver the event in this state. -/
def step (s : State) : Event → Option State
  | .open_action =>
    if input_blocked s then none else some (text_viewer_window__open_file_dialog s)
  | .response id response chosen =>
    match s.dialogs.find? (fun d => d.id == id) with
    | some d => some (on_open_response { d with file := chosen } response s)
    | none => none
  | .load_done index result =>
    match s.loads[index]? with
    | some file =>
      some (open_file_complete file result { s with loads := s.loads.eraseIdx index })
    | none => none

/-- The main loop over a list of events. -/
def run (s : State) : List Event → Option State
  | [] => some s
  | e :: es =>
    match step s e with
    | some s1 => run s1 es
    | none => none

/-- Number of open operations in flight: dialogs shown plus loads pending. -/
def in_flight (s : State) : Nat :=
  s.dialogs.length + s.loads.length

/-- The window as `text_viewer_window_init` leaves it: nothing displayed, no
dialog, no load; the console is UTF-8. -/
def State.init (title : Option String) : State :=
  { self := { title := title, main_text_view := { text := [], cursor := 0 } },
    err := [], dialogs := [], loads := [], created := 0, console := Charset.UTF8 }

/-! ## `text-viewer-application.c` -/

/-- The object built by `g_object_new (TEXT_VIEWER_TYPE_APPLICATION,
"application-id", application_id, "flags", flags, NULL)`: the two
construction properties as they were handed over. -/
structure TextViewerApplication where
  application_id : String
  flags : Nat
  deriving DecidableEq, Repr

/-- The constructor `text_viewer_application_new (application_id, flags)`;
`none` is the NULL returned by `g_return_val_if_fail`. -/
def text_viewer_application_new (application_id : Option String) (flags : Nat) :
    Option TextViewerApplication :=
  match application_id with
  | none => none
  | some id => some { application_id := id, flags := flags }

/-- GTK `GtkApplication`, the part activation uses: the windows of the
application, most recently focused first; the number of windows built so
far (the next window handle); the windows handed to `gtk_window_present`. -/
structure GtkApplication where
  windows : List Nat
  created : Nat
  presented : List Nat
  deriving DecidableEq, Repr

/-- GTK `gtk_application_get_active_window`: the most recently focused
window, NULL when the application has no window. -/
def gtk_application_get_active_window (app : GtkApplication) : Option Nat :=
  app.windows.head?

/-- GObject `g_object_new (TEXT_VIEWER_TYPE_WINDOW, "application", app, NULL)`:
a new window, added to the windows of the application. -/
def g_object_new_window (app : GtkApplication) : Nat × GtkApplication :=
  (app.created, { app with windows := app.created :: app.windows, created := app.created + 1 })

/-- GTK `gtk_window_present`: the window is raised and focused. -/
def gtk_window_present (window : Nat) (app : GtkApplication) : GtkApplication :=
  { app with windows := window :: app.windows.erase window,
             presented := app.presented ++ [window] }

/-- The handler `text_viewer_application_activate (app)`. -/
def text_viewer_application_activate (app : GtkApplication) : GtkApplication :=
  match gtk_application_get_active_window app with
  | none =>
    let (window, app1) := g_object_new_window app
    gtk_window_present window app1
  | some window => gtk_window_present window app

/-- The application before its first activation. -/
def GtkApplication.init : GtkApplication :=
  { windows := [], created := 0, presented := [] }

/-- A file of `n` bytes, each the letter `a`. -/
def letters (n : Nat) (h : n < 9223372036854775808) : Contents :=
  ⟨List.replicate n 97, by rw [List.length_replicate]; exact h⟩

/-! ## Predicates and inputs used by the theorems -/

/-- The run triggers the open action only in states where nothing is in
flight. -/
def opens_when_idle : State → List Event → Bool
  | _, [] => true
  | s, e :: es =>
    (match e with
      | .open_action => decide (in_flight s = 0)
      | _ => true)
    && (match step s e with
      | some s1 => opens_when_idle s1 es
      | none => true)

/-- A file used in the examples. -/
def GFile.notes : GFile := ⟨"/home/u/notes.txt", none, true⟩

/-- The window showing "old" under the title "before", cursor at 2, on a
UTF-8 console. -/
def State.before : State :=
  { self := { title := some "before",
              main_text_view := { text := [111, 108, 100], cursor := 2 } },
    err := [], dialogs := [], loads := [], created := 0, console := Charset.UTF8 }

theorem gsize_to_gssize_of_lt {n : Nat} (h : n < 9223372036854775808) :
    gsize_to_gssize n = (n : Int) := by
  unfold gsize_to_gssize
  have h1 : n % 18446744073709551616 = n := Nat.mod_eq_of_lt (by omega)
  rw [h1, if_pos h]

theorem gsize_to_int_of_lt {n : Nat} (h : n < 2147483648) :
    gsize_to_int n = (n : Int) := by
  unfold gsize_to_int
  have h1 : n % 4294967296 = n := Nat.mod_eq_of_lt (by omega)
  rw [h1, if_pos h]

theorem gsize_to_int_neg {n : Nat} (h1 : 2147483648 ≤ n) (h2 : n < 4294967296) :
    gsize_to_int n < 0 := by
  unfold gsize_to_int
  have h3 : n % 4294967296 = n := Nat.mod_eq_of_lt h2
  rw [h3, if_neg (by omega)]
  omega

theorem strlen_mem {data : List Nat} (h : 0 ∉ data) : strlen (data ++ [0]) = data.length := by
  unfold strlen
  induction data with
  | nil => simp
  | cons b bs ih =>
    have hb : b ≠ 0 := fun e => h (by simp [e])
    have hbs : 0 ∉ bs := fun e => h (by simp [e])
    simp [List.takeWhile_cons, hb, ih hbs]

theorem g_utf8_validate_natCast (data : List Nat) :
    g_utf8_validate (data ++ [0]) (data.length : Int)
      = (!(data.contains 0) && validUtf8 data) := by
  unfold g_utf8_validate
  simp

/-- What `g_utf8_validate (contents, lenght, NULL)` answers on loaded
contents: TRUE exactly when no byte is NUL and the bytes are well-formed. -/
theorem g_utf8_validate_contents (c : Contents) :
    g_utf8_validate c.mem (gsize_to_gssize c.lenght)
      = (!(c.data.contains 0) && validUtf8 c.data) := by
  unfold Contents.mem Contents.lenght
  rw [gsize_to_gssize_of_lt c.size_ok, g_utf8_validate_natCast]

theorem utf8Decode_ascii (b : Nat) (rest : List Nat) (h : b < 128) :
    utf8Decode (b :: rest) = (utf8Decode rest).map (List.cons b) := by
  conv_lhs => unfold utf8Decode
  simp [h]

theorem utf8Decode_replicate (n : Nat) :
    utf8Decode (List.replicate n 97) = some (List.replicate n 97) := by
  induction n with
  | zero => simp [utf8Decode]
  | succ k ih => rw [List.replicate_succ, utf8Decode_ascii _ _ (by omega), ih]; rfl

theorem not_mem_replicate (n : Nat) : 0 ∉ List.replicate n 97 := by
  intro h
  have := List.eq_of_mem_replicate h
  omega

/-! ## Lemmas on `open_file_complete` -/

theorem open_file_complete_error (file : GFile) (e : GError) (s : State) :
    open_file_complete file (.error e) s
      = g_printerr (read_failure_message (g_file_peek_path file) e.message) s := rfl

theorem open_file_complete_rejected (file : GFile) (c : Contents) (s : State)
    (h : g_utf8_validate c.mem (gsize_to_gssize c.lenght) = false) :
    open_file_complete file (.ok c) s
      = g_printerr (not_utf8_message (g_file_peek_path file)) s := by
  simp [open_file_complete, g_file_load_contents_finish, h]

theorem open_file_complete_accepted (file : GFile) (c : Contents) (s : State)
    (h : g_utf8_validate c.mem (gsize_to_gssize c.lenght) = true) :
    open_file_complete file (.ok c) s
      = { s with self :=
            { title := resolve_display_name file,
              main_text_view :=
                { text := (gtk_text_buffer_set_text s.self.main_text_view c.mem
                            (gsize_to_int c.lenght)).text,
                  cursor := 0 } } } := by
  simp [open_file_complete, g_file_load_contents_finish, h, gtk_window_set_title,
    gtk_text_buffer_place_cursor, gtk_text_buffer_get_start_iter, gtk_text_view_get_buffer]

/-- Below 2 GiB the `int` holds the length and the whole text is inserted. -/
theorem set_text_small (buffer : GtkTextBuffer) (data chars : List Nat)
    (hlen : data.length < 2147483648)
    (hv : g_utf8_validate (data ++ [0]) (data.length : Int) = true)
    (hdec : utf8Decode data = some chars) :
    (gtk_text_buffer_set_text buffer (data ++ [0]) (gsize_to_int data.length)).text
      = chars := by
  rw [gsize_to_int_of_lt hlen]
  unfold gtk_text_buffer_set_text
  have hnn : ¬ ((data.length : Int) < 0) := by omega
  simp only [hnn, if_false, hv, and_true]
  by_cases h0 : 0 < (data.length : Int)
  · simp [h0, hdec]
  · have hnil : data = [] := List.length_eq_zero.mp (by omega)
    subst hnil
    simp [utf8Decode] at hdec
    simp [hdec]

/-- With a length that turns negative in the `int`, nothing is inserted. -/
theorem set_text_negative (buffer : GtkTextBuffer) (data : List Nat) (h0 : 0 ∉ data)
    (hneg : gsize_to_int data.length < 0) :
    gtk_text_buffer_set_text buffer (data ++ [0]) (gsize_to_int data.length)
      = { text := [], cursor := 0 } := by
  unfold gtk_text_buffer_set_text
  simp only [hneg, if_true, strlen_mem h0]
  have : ¬ (0 < gsize_to_int data.length) := by omega
  simp [this]

/-- With a length that wraps to `k` in the `int`, `k` letters are inserted. -/
theorem set_text_letters_wrap (buffer : GtkTextBuffer) (n k : Nat)
    (hk : gsize_to_int n = (k : Int)) (hkn : k ≤ n) :
    (gtk_text_buffer_set_text buffer (List.replicate n 97 ++ [0]) (gsize_to_int n)).text
      = List.replicate k 97 := by
  have htake : List.take k (List.replicate n 97 ++ [0]) = List.replicate k 97 := by
    rw [List.take_append_of_le_length (by simpa using hkn), List.take_replicate,
      Nat.min_eq_left hkn]
  have hc : (List.replicate k 97).contains 0 = false := by
    simp
  have hv : g_utf8_validate (List.replicate n 97 ++ [0]) (k : Int) = true := by
    unfold g_utf8_validate
    simp only [Int.toNat_ofNat, htake]
    simp [validUtf8, utf8Decode_replicate, hc]
  rw [hk]
  unfold gtk_text_buffer_set_text
  have hnn : ¬ ((k : Int) < 0) := by omega
  simp only [hnn, if_false, hv, and_true, Int.toNat_ofNat, htake, utf8Decode_replicate]
  by_cases h0 : 0 < (k : Int)
  · simp [h0]
  · have : k = 0 := by omega
    subst this
    simp

/-- Contents made of the letter `a` pass `g_utf8_validate`. -/
theorem letters_validate (n : Nat) (h : n < 9223372036854775808) :
    g_utf8_validate (letters n h).mem (gsize_to_gssize (letters n h).lenght) = true := by
  rw [g_utf8_validate_contents]
  have hc : (List.replicate n 97).contains 0 = false := by
    simp
  simp [letters, validUtf8, utf8Decode_replicate, hc]

theorem open_file_complete_letters_negative (file : GFile) (s : State) (n : Nat)
    (h : n < 9223372036854775808) (hneg : gsize_to_int n < 0) :
    open_file_complete file (.ok (letters n h)) s
      = { s with self := { title := resolve_display_name file,
                           main_text_view := { text := [], cursor := 0 } } } := by
  rw [open_file_complete_accepted file _ s (letters_validate n h)]
  have hlen : (letters n h).lenght = (List.replicate n 97).length := rfl
  have hmem : (letters n h).mem = List.replicate n 97 ++ [0] := rfl
  rw [hlen, hmem, set_text_negative _ _ (not_mem_replicate n)]
  rw [List.length_replicate]
  exact hneg

theorem open_file_complete_letters_wrap (file : GFile) (s : State) (n k : Nat)
    (h : n < 9223372036854775808) (hk : gsize_to_int n = (k : Int)) (hkn : k ≤ n) :
    open_file_complete file (.ok (letters n h)) s
      = { s with self := { title := resolve_display_name file,
                           main_text_view := { text := List.replicate k 97, cursor := 0 } } } := by
  rw [open_file_complete_accepted file _ s (letters_validate n h)]
  have hlen : (letters n h).lenght = n := by
    unfold Contents.lenght letters
    exact List.length_replicate _ _
  have hmem : (letters n h).mem = List.replicate n 97 ++ [0] := rfl
  rw [hlen, hmem, set_text_letters_wrap _ n k hk hkn]

theorem replicate_ne_nil (n : Nat) (h : 0 < n) : List.replicate n 97 ≠ ([] : List Nat) := by
  intro e
  have := congrArg List.length e
  rw [List.length_replicate] at this
  simp at this
  omega

/-- What the success path does for contents shorter than 2 GiB: the buffer
holds the decoded file, the cursor is at 0 and the title is the resolved
display name. -/
theorem open_file_complete_success_small (file : GFile) (c : Contents) (s : State)
    (hlen : c.lenght < 2147483648)
    (hv : g_utf8_validate c.mem (gsize_to_gssize c.lenght) = true) :
    ∃ chars, utf8Decode c.data = some chars ∧
      open_file_complete file (.ok c) s
        = { s with self := { title := resolve_display_name file,
                             main_text_view := { text := chars, cursor := 0 } } } := by
  have hv2 := hv
  rw [g_utf8_validate_contents] at hv2
  simp only [Bool.and_eq_true, validUtf8] at hv2
  obtain ⟨chars, hchars⟩ := Option.isSome_iff_exists.mp hv2.2
  refine ⟨chars, hchars, ?_⟩
  rw [open_file_complete_accepted file c s hv]
  have hv3 : g_utf8_validate (c.data ++ [0]) (c.data.length : Int) = true := by
    have := hv
    unfold Contents.mem Contents.lenght at this
    rwa [gsize_to_gssize_of_lt c.size_ok] at this
  have := set_text_small s.self.main_text_view c.data chars hlen hv3 hchars
  unfold Contents.mem Contents.lenght
  rw [this]

/-- The scenario of the specification: `greeting.txt` holding "Hello, world!"
and a line feed is displayed whole, cursor at 0, under the title
"greeting.txt". -/
theorem open_file_complete_greeting :
    open_file_complete ⟨"/home/u/greeting.txt", none, true⟩
        (.ok ⟨[72, 101, 108, 108, 111, 44, 32, 119, 111, 114, 108, 100, 33, 10], by decide⟩)
        State.before
      = { State.before with
          self := { title := some "greeting.txt",
                    main_text_view :=
                      { text := [72, 101, 108, 108, 111, 44, 32, 119, 111, 114, 108, 100, 33, 10],
                        cursor := 0 } } } := by
  rfl

/-! ## The claims on `open_file_complete` -/

/-- C1, evaluated on files of 4 GiB and of 2 GiB of the letter `a`: the read
succeeded and the bytes are valid UTF-8 (they decode to as many characters),
the cursor is at 0 and the title is the resolved display name, but the text
buffer is left empty instead of holding the decoded file: the length 2^32 is
0 in the `int` handed to `gtk_text_buffer_set_text`, the length 2^31 is
negative there.  So it is not for every accepted file that the buffer holds
the decoded bytes. -/
theorem open_file_complete_large_file (file : GFile) (s : State) :
    (utf8Decode (letters 4294967296 (by norm_num)).data
          = some (List.replicate 4294967296 97)
        ∧ g_utf8_validate (letters 4294967296 (by norm_num)).mem
            (gsize_to_gssize (letters 4294967296 (by norm_num)).lenght) = true
        ∧ open_file_complete file (.ok (letters 4294967296 (by norm_num))) s
            = { s with self := { title := resolve_display_name file,
                                 main_text_view := { text := [], cursor := 0 } } }
        ∧ List.replicate 4294967296 97 ≠ ([] : List Nat))
      ∧ (utf8Decode (letters 2147483648 (by norm_num)).data
          = some (List.replicate 2147483648 97)
        ∧ g_utf8_validate (letters 2147483648 (by norm_num)).mem
            (gsize_to_gssize (letters 2147483648 (by norm_num)).lenght) = true
        ∧ open_file_complete file (.ok (letters 2147483648 (by norm_num))) s
            = { s with self := { title := resolve_display_name file,
                                 main_text_view := { text := [], cursor := 0 } } }
        ∧ List.replicate 2147483648 97 ≠ ([] : List Nat))
      ∧ ¬ (∀ c : Contents, g_utf8_validate c.mem (gsize_to_gssize c.lenght) = true →
            utf8Decode c.data
              = some (open_file_complete file (.ok c) s).self.main_text_view.text) := by
  have hbig := open_file_complete_letters_wrap file s 4294967296 0 (by norm_num)
    (by decide) (by norm_num)
  refine ⟨⟨utf8Decode_replicate _, letters_validate _ _, hbig,
      replicate_ne_nil _ (by norm_num)⟩,
    ⟨utf8Decode_replicate _, letters_validate _ _,
      open_file_complete_letters_negative file s _ _
        (gsize_to_int_neg (by norm_num) (by norm_num)),
      replicate_ne_nil _ (by norm_num)⟩, ?_⟩
  intro h
  have h1 := h (letters 4294967296 (by norm_num)) (letters_validate _ _)
  rw [hbig] at h1
  have h2 : utf8Decode (letters 4294967296 (by norm_num)).data
      = some (List.replicate 4294967296 97) := utf8Decode_replicate _
  rw [h2] at h1
  exact replicate_ne_nil 4294967296 (by norm_num) (Option.some.inj h1)

/-- C9, evaluated on two files of the letter `a`: for 2^32 + 5 bytes the
byte count that reaches `gtk_text_buffer_set_text` is 5, not the length, and
the displayed text is the prefix of 5 letters; for 2^31 bytes the count is
-2^31 and the displayed text is empty. -/
theorem display_step_truncates (file : GFile) (s : State) :
    (letters 4294967301 (by norm_num)).lenght = 4294967301
      ∧ gsize_to_int (letters 4294967301 (by norm_num)).lenght = 5
      ∧ (open_file_complete file (.ok (letters 4294967301 (by norm_num))) s).self.main_text_view.text
          = [97, 97, 97, 97, 97]
      ∧ gsize_to_int (letters 2147483648 (by norm_num)).lenght = -2147483648
      ∧ (open_file_complete file (.ok (letters 2147483648 (by norm_num))) s).self.main_text_view.text
          = [] := by
  have hl1 : (letters 4294967301 (by norm_num)).lenght = 4294967301 := by
    unfold Contents.lenght letters
    exact List.length_replicate _ _
  have hl2 : (letters 2147483648 (by norm_num)).lenght = 2147483648 := by
    unfold Contents.lenght letters
    exact List.length_replicate _ _
  have h5 : gsize_to_int 4294967301 = ((5 : Nat) : Int) := by decide
  have hn : gsize_to_int 2147483648 = -2147483648 := by decide
  refine ⟨hl1, ?_, ?_, ?_, ?_⟩
  · rw [hl1]; exact h5
  · rw [open_file_complete_letters_wrap file s 4294967301 5 _ h5 (by norm_num)]
    rfl
  · rw [hl2]; exact hn
  · rw [open_file_complete_letters_negative file s 2147483648 _
      (gsize_to_int_neg (by norm_num) (by norm_num))]

/-- C2: when the read failed, or the bytes read are not valid UTF-8,
`open_file_complete` leaves the text of the buffer, the cursor and the title
of the window as they were. -/
theorem open_file_complete_failure_unchanged (file : GFile) (result : GAsyncResult)
    (s : State)
    (h : (∃ e, result = .error e) ∨ (∃ c, result = .ok c ∧ validUtf8 c.data = false)) :
    (open_file_complete file result s).self.main_text_view.text = s.self.main_text_view.text
      ∧ (open_file_complete file result s).self.main_text_view.cursor
          = s.self.main_text_view.cursor
      ∧ (open_file_complete file result s).self.title = s.self.title := by
  rcases h with ⟨e, rfl⟩ | ⟨c, rfl, hc⟩
  · rw [open_file_complete_error]
    exact ⟨rfl, rfl, rfl⟩
  · have hrej : g_utf8_validate c.mem (gsize_to_gssize c.lenght) = false := by
      rw [g_utf8_validate_contents, hc, Bool.and_false]
    rw [open_file_complete_rejected file c s hrej]
    exact ⟨rfl, rfl, rfl⟩

/-- C2 at the bytes `0xFF 0xFE`, with "old" displayed under the title
"before". -/
theorem open_file_complete_failure_unchanged_witness :
    validUtf8 [255, 254] = false
      ∧ (open_file_complete ⟨"/tmp/bad.bin", none, true⟩ (.ok ⟨[255, 254], by decide⟩)
            State.before).self.main_text_view.text = [111, 108, 100]
      ∧ (open_file_complete ⟨"/tmp/bad.bin", none, true⟩ (.ok ⟨[255, 254], by decide⟩)
            State.before).self.main_text_view.cursor = 2
      ∧ (open_file_complete ⟨"/tmp/bad.bin", none, true⟩ (.ok ⟨[255, 254], by decide⟩)
            State.before).self.title = some "before" :=
  ⟨by decide,
    open_file_complete_failure_unchanged ⟨"/tmp/bad.bin", none, true⟩
      (.ok ⟨[255, 254], by decide⟩) State.before (Or.inr ⟨_, rfl, by decide⟩)⟩

/-- C10: loaded contents with a NUL byte are rejected, the state is left as it
was but for the not-UTF-8 diagnostic, and that holds for bytes that are
otherwise well-formed UTF-8 (`a`, NUL, `b` decodes); the empty file is
accepted, and the buffer then holds the empty text. -/
theorem nul_rejected_empty_accepted (file : GFile) (s : State) :
    (∀ c : Contents, 0 ∈ c.data →
        open_file_complete file (.ok c) s
            = g_printerr (not_utf8_message (g_file_peek_path file)) s
          ∧ (open_file_complete file (.ok c) s).self.main_text_view = s.self.main_text_view
          ∧ (open_file_complete file (.ok c) s).self.title = s.self.title)
      ∧ utf8Decode [97, 0, 98] = some [97, 0, 98]
      ∧ open_file_complete file (.ok ⟨[], by decide⟩) s
          = { s with self := { title := resolve_display_name file,
                               main_text_view := { text := [], cursor := 0 } } } := by
  refine ⟨?_, by decide, ?_⟩
  · intro c hc
    have hrej : g_utf8_validate c.mem (gsize_to_gssize c.lenght) = false := by
      rw [g_utf8_validate_contents]
      have : c.data.contains 0 = true := by simpa using hc
      rw [this]
      rfl
    rw [open_file_complete_rejected file c s hrej]
    exact ⟨rfl, rfl, rfl⟩
  · obtain ⟨chars, hchars, h⟩ := open_file_complete_success_small file ⟨[], by decide⟩ s
      (by decide) (by decide)
    have : chars = [] := by
      have h2 : utf8Decode [] = some chars := hchars
      simp [utf8Decode] at h2
      exact h2
    rw [h, this]

/-- C10 at the file `a`, NUL, `b`. -/
theorem nul_rejected_empty_accepted_witness :
    (0 : Nat) ∈ [97, 0, 98]
      ∧ (open_file_complete ⟨"/tmp/nul.txt", none, true⟩ (.ok ⟨[97, 0, 98], by decide⟩)
            (State.init (some "before"))).self
          = { title := some "before", main_text_view := { text := [], cursor := 0 } } := by
  refine ⟨by decide, ?_⟩
  have h := ((nul_rejected_empty_accepted ⟨"/tmp/nul.txt", none, true⟩
    (State.init (some "before"))).1 ⟨[97, 0, 98], by decide⟩ (by decide)).1
  rw [h]
  rfl

/-! ## Display name -/

theorem takeWhile_append_stop {α : Type} (p : α → Bool) (l m : List α) (a : α)
    (hl : ∀ x ∈ l, p x = true) (ha : p a = false) :
    (l ++ a :: m).takeWhile p = l := by
  induction l with
  | nil => simp [List.takeWhile_cons, ha]
  | cons x xs ih =>
    have hx : p x = true := hl x (by simp)
    have hxs : ∀ y ∈ xs, p y = true := fun y hy => hl y (by simp [hy])
    simp [List.takeWhile_cons, hx, ih hxs]

/-- On a path `dir/name`, `name` not empty and without separator,
`g_path_get_basename` answers `name`. -/
theorem g_path_get_basename_component (dir name : List Char) (hne : name ≠ [])
    (hs : '/' ∉ name) :
    g_path_get_basename (String.mk (dir ++ '/' :: name)) = String.mk name := by
  unfold g_path_get_basename
  have hdata : (String.mk (dir ++ '/' :: name)).data = dir ++ '/' :: name := rfl
  have hr : (dir ++ '/' :: name).reverse = name.reverse ++ '/' :: dir.reverse := by simp
  have hnotslash : ∀ x ∈ name.reverse, (x != '/') = true := by
    intro x hx
    have hx2 : x ∈ name := List.mem_reverse.mp hx
    have : x ≠ '/' := fun e => hs (e ▸ hx2)
    simpa using this
  have hdrop : (name.reverse ++ '/' :: dir.reverse).dropWhile (fun c => c == '/')
      = name.reverse ++ '/' :: dir.reverse := by
    cases hrev : name.reverse with
    | nil => exact absurd (List.reverse_eq_nil_iff.mp hrev) hne
    | cons x t =>
      have hx : (x != '/') = true := hnotslash x (by rw [hrev]; simp)
      have hx2 : (x == '/') = false := by simpa using hx
      simp [List.dropWhile_cons, hx2]
  have htake : (name.reverse ++ '/' :: dir.reverse).takeWhile (fun c => c != '/')
      = name.reverse :=
    takeWhile_append_stop _ _ _ _ hnotslash (by simp)
  rw [hdata, hr]
  simp only [hdrop, htake, List.reverse_reverse]
  simp

/-- C4: when the display-name query fails the resolved display name is the
base name of the file, which for a path `dir/name` is `name`, and after a
successful open the title is that base name; when the query succeeds the
resolved name, and the title after a successful open, is the queried display
name. -/
theorem display_name_fallback (file : GFile) :
    (g_file_query_info file = none →
        resolve_display_name file = g_file_get_basename file
          ∧ (∀ dir name : List Char, name ≠ [] → '/' ∉ name →
                file.path = String.mk (dir ++ '/' :: name) →
                resolve_display_name file = some (String.mk name))
          ∧ (∀ (c : Contents) (s : State),
                g_utf8_validate c.mem (gsize_to_gssize c.lenght) = true →
                (open_file_complete file (.ok c) s).self.title = g_file_get_basename file))
      ∧ (∀ info, g_file_query_info file = some info →
          resolve_display_name file = g_file_info_get_attribute_string info
            ∧ (∀ (c : Contents) (s : State),
                  g_utf8_validate c.mem (gsize_to_gssize c.lenght) = true →
                  (open_file_complete file (.ok c) s).self.title
                    = g_file_info_get_attribute_string info)) := by
  constructor
  · intro hq
    have hres : resolve_display_name file = g_file_get_basename file := by
      unfold resolve_display_name
      rw [hq]
    refine ⟨hres, ?_, ?_⟩
    · intro dir name hne hs hp
      rw [hres]
      unfold g_file_get_basename
      rw [hp, g_path_get_basename_component dir name hne hs]
    · intro c s hv
      rw [open_file_complete_accepted file c s hv, ← hres]
  · intro info hq
    have hres : resolve_display_name file = g_file_info_get_attribute_string info := by
      unfold resolve_display_name
      rw [hq]
      rfl
    refine ⟨hres, ?_⟩
    intro c s hv
    rw [open_file_complete_accepted file c s hv, ← hres]

/-- C4 at `/home/u/greeting.txt` without metadata, holding "Hello, world!"
and a line feed: the title becomes "greeting.txt". -/
theorem display_name_fallback_witness :
    g_file_query_info ⟨"/home/u/greeting.txt", none, true⟩ = none
      ∧ g_utf8_validate
          (Contents.mem ⟨[72, 101, 108, 108, 111, 44, 32, 119, 111, 114, 108, 100, 33, 10],
            by decide⟩)
          (gsize_to_gssize (Contents.lenght
            ⟨[72, 101, 108, 108, 111, 44, 32, 119, 111, 114, 108, 100, 33, 10], by decide⟩))
          = true
      ∧ g_file_get_basename ⟨"/home/u/greeting.txt", none, true⟩ = some "greeting.txt"
      ∧ (open_file_complete ⟨"/home/u/greeting.txt", none, true⟩
            (.ok ⟨[72, 101, 108, 108, 111, 44, 32, 119, 111, 114, 108, 100, 33, 10], by decide⟩)
            State.before).self.title
          = g_file_get_basename ⟨"/home/u/greeting.txt", none, true⟩ :=
  ⟨rfl, by decide, by decide,
    ((display_name_fallback ⟨"/home/u/greeting.txt", none, true⟩).1 rfl).2.2 _ State.before
      (by decide)⟩

/-! ## Diagnostics -/

/-- On a location without local path the `%s` of the path prints `(null)`. -/
theorem open_file_complete_no_local_path :
    (open_file_complete ⟨"/home/u/notes.txt", none, false⟩ (.error ⟨"Host unreachable"⟩)
        State.before).err
      = ["Unable to open ´´(null)´´: Host unreachable\n"] := by
  decide

/-- C3: on a response other than accept, `on_open_response` only releases the
dialog: no load is started, the window (buffer, cursor, title) and the error
stream are untouched, and when that dialog was the only operation in flight
nothing is in flight afterwards. -/
theorem on_open_response_cancel (native : GtkFileChooserNative) (response : Int)
    (s : State) (h : response ≠ GTK_RESPONSE_ACCEPT) :
    on_open_response native response s = g_object_unref native s
      ∧ (on_open_response native response s).loads = s.loads
      ∧ (on_open_response native response s).self = s.self
      ∧ (on_open_response native response s).err = s.err
      ∧ native ∉ (on_open_response native response s).dialogs
      ∧ (s.dialogs = [native] → s.loads = [] →
          in_flight (on_open_response native response s) = 0) := by
  have h1 : on_open_response native response s = g_object_unref native s := by
    unfold on_open_response
    simp [h]
  rw [h1]
  refine ⟨rfl, rfl, rfl, rfl, ?_, ?_⟩
  · unfold g_object_unref
    simp
  · intro hd hl
    unfold in_flight g_object_unref
    simp [hd, hl]

/-- C3 at the cancel response, on the dialog the open action has just
shown. -/
theorem on_open_response_cancel_witness :
    GTK_RESPONSE_CANCEL ≠ GTK_RESPONSE_ACCEPT
      ∧ on_open_response
            (gtk_native_dialog_show (gtk_file_chooser_native_new 0 "Open File" "_Open" "_Cancel"))
            GTK_RESPONSE_CANCEL (text_viewer_window__open_file_dialog State.before)
          = { State.before with created := 1 } :=
  ⟨by decide,
    ((on_open_response_cancel
      (gtk_native_dialog_show (gtk_file_chooser_native_new 0 "Open File" "_Open" "_Cancel"))
      GTK_RESPONSE_CANCEL (text_viewer_window__open_file_dialog State.before)
      (by decide)).1).trans rfl⟩

/-! ## The open-file state machine -/

theorem open_file_complete_dialogs_loads (file : GFile) (result : GAsyncResult) (s : State) :
    (open_file_complete file result s).dialogs = s.dialogs
      ∧ (open_file_complete file result s).loads = s.loads := by
  cases result with
  | error e => rw [open_file_complete_error]; exact ⟨rfl, rfl⟩
  | ok c =>
    cases hv : g_utf8_validate c.mem (gsize_to_gssize c.lenght)
    · rw [open_file_complete_rejected file c s hv]; exact ⟨rfl, rfl⟩
    · rw [open_file_complete_accepted file c s hv]; exact ⟨rfl, rfl⟩

theorem filter_length_lt_of_find {ds : List GtkFileChooserNative} {d : GtkFileChooserNative}
    {id : Nat} (h : ds.find? (fun x => x.id == id) = some d) :
    (ds.filter (fun x => x.id != id)).length < ds.length := by
  induction ds with
  | nil => simp at h
  | cons x xs ih =>
    by_cases hx : x.id = id
    · have hle := List.length_filter_le (fun y : GtkFileChooserNative => y.id != id) xs
      simp [List.filter_cons, hx]
      omega
    · have hx2 : (x.id == id) = false := by simpa using hx
      rw [List.find?_cons, hx2] at h
      have := ih h
      simp [List.filter_cons, hx]
      omega

theorem find_id {ds : List GtkFileChooserNative} {d : GtkFileChooserNative}
    {id : Nat} (h : ds.find? (fun x => x.id == id) = some d) : d.id = id := by
  have := List.find?_some h
  simpa using this

/-- A response or a completed load never raises the number of operations in
flight. -/
theorem step_not_open_le (s s1 : State) (e : Event) (he : e ≠ .open_action)
    (h : step s e = some s1) : in_flight s1 ≤ in_flight s := by
  cases e with
  | open_action => exact absurd rfl he
  | response id response chosen =>
    unfold step at h
    cases hf : s.dialogs.find? (fun d => d.id == id) with
    | none => simp [hf] at h
    | some d =>
      simp only [hf, Option.some.injEq] at h
      subst h
      have hid := find_id hf
      have hlt := filter_length_lt_of_find hf
      unfold on_open_response g_object_unref in_flight
      by_cases hr : response = GTK_RESPONSE_ACCEPT
      · cases chosen with
        | none => simp [hr, open_file, gtk_file_chooser_get_file, hid]; omega
        | some f => simp [hr, open_file, gtk_file_chooser_get_file, hid]; omega
      · simp [hr, hid]; omega
  | load_done index result =>
    unfold step at h
    cases hg : s.loads[index]? with
    | none => simp [hg] at h
    | some file =>
      simp only [hg, Option.some.injEq] at h
      subst h
      have hlt : index < s.loads.length := by
        rcases List.getElem?_eq_some.mp hg with ⟨hh, _⟩
        exact hh
      have hd := open_file_complete_dialogs_loads file result
        { s with loads := s.loads.eraseIdx index }
      unfold in_flight
      rw [hd.1, hd.2]
      simp only [List.length_eraseIdx, hlt, if_true]
      omega

/-- C7 as amended: along a run in which the open action is triggered only
when nothing is in flight, at most one open operation is in flight in every
state that is reached. -/
theorem at_most_one_in_flight (s s1 : State) (events : List Event)
    (h0 : in_flight s ≤ 1) (hidle : opens_when_idle s events = true)
    (hrun : run s events = some s1) : in_flight s1 ≤ 1 := by
  induction events generalizing s with
  | nil =>
    simp [run] at hrun
    subst hrun
    exact h0
  | cons e es ih =>
    unfold run at hrun
    unfold opens_when_idle at hidle
    cases hs : step s e with
    | none => simp [hs] at hrun
    | some s2 =>
      simp only [hs] at hrun hidle
      rw [Bool.and_eq_true] at hidle
      refine ih s2 ?_ hidle.2 hrun
      cases e with
      | open_action =>
        have hz : in_flight s = 0 := by simpa using hidle.1
        unfold step at hs
        cases hb : input_blocked s
        · simp [hb] at hs
          subst hs
          unfold in_flight text_viewer_window__open_file_dialog
          unfold in_flight at hz
          simp
          omega
        · simp [hb] at hs
      | response id response chosen =>
        exact le_trans (step_not_open_le s s2 _ (by simp) hs) h0
      | load_done index result =>
        exact le_trans (step_not_open_le s s2 _ (by simp) hs) h0

/-- C7 at the run: open, cancel, open, accept `notes.txt`, load completes. -/
theorem at_most_one_in_flight_witness :
    in_flight (State.init none) ≤ 1
      ∧ opens_when_idle (State.init none)
          [.open_action, .response 0 GTK_RESPONSE_CANCEL none, .open_action,
            .response 1 GTK_RESPONSE_ACCEPT (some GFile.notes),
            .load_done 0 (.ok ⟨[104, 105], by decide⟩)] = true
      ∧ ∃ s1, run (State.init none)
          [.open_action, .response 0 GTK_RESPONSE_CANCEL none, .open_action,
            .response 1 GTK_RESPONSE_ACCEPT (some GFile.notes),
            .load_done 0 (.ok ⟨[104, 105], by decide⟩)] = some s1
          ∧ in_flight s1 ≤ 1 :=
  ⟨by decide, by decide, _, rfl,
    at_most_one_in_flight (State.init none) _
      [.open_action, .response 0 GTK_RESPONSE_CANCEL none, .open_action,
        .response 1 GTK_RESPONSE_ACCEPT (some GFile.notes),
        .load_done 0 (.ok ⟨[104, 105], by decide⟩)]
      (by decide) (by decide) rfl⟩

/-- C7 refuted: the dialog is made with `modal` FALSE and stays so when it is
shown; from the initial state, the open action fired twice leaves two dialogs
shown; and the open action fired again after a file was accepted, while its
load is pending, leaves a dialog and a load: two operations in flight.  So
"at most one in flight in every reachable state" is false. -/
theorem second_open_in_flight :
    (gtk_native_dialog_show
        (gtk_file_chooser_native_new 0 "Open File" "_Open" "_Cancel")).modal = false
      ∧ (run (State.init none) [.open_action, .open_action]).map in_flight = some 2
      ∧ (run (State.init none)
            [.open_action, .response 0 GTK_RESPONSE_ACCEPT (some GFile.notes),
              .open_action]).map
          (fun s => (s.dialogs.length, s.loads.length)) = some (1, 1)
      ∧ ¬ (∀ (events : List Event) (s : State),
            run (State.init none) events = some s → in_flight s ≤ 1) := by
  refine ⟨rfl, by decide, by decide, ?_⟩
  intro h
  have hm : (run (State.init none)
      [.open_action, .response 0 GTK_RESPONSE_ACCEPT (some GFile.notes),
        .open_action]).map in_flight = some 2 := by decide
  cases hr : run (State.init none)
      [.open_action, .response 0 GTK_RESPONSE_ACCEPT (some GFile.notes), .open_action] with
  | none =>
    rw [hr] at hm
    simp at hm
  | some s =>
    rw [hr] at hm
    simp only [Option.map_some', Option.some.injEq] at hm
    have := h _ s hr
    omega

/-! ## The application shell -/

theorem activate_no_window (app : GtkApplication) (h : app.windows = []) :
    text_viewer_application_activate app
      = { windows := [app.created], created := app.created + 1,
          presented := app.presented ++ [app.created] } := by
  unfold text_viewer_application_activate gtk_application_get_active_window
  simp [h, g_object_new_window, gtk_window_present]

theorem activate_with_window (app : GtkApplication) (w : Nat) (ws : List Nat)
    (h : app.windows = w :: ws) :
    text_viewer_application_activate app
      = { app with presented := app.presented ++ [w] } := by
  unfold text_viewer_application_activate gtk_application_get_active_window
  simp [h, gtk_window_present]

theorem activate_iterate (n : Nat) :
    (Nat.iterate text_viewer_application_activate (n + 1) GtkApplication.init).windows = [0]
      ∧ (Nat.iterate text_viewer_application_activate (n + 1) GtkApplication.init).created
          = 1 := by
  induction n with
  | zero => exact ⟨rfl, rfl⟩
  | succ k ih =>
    rw [Function.iterate_succ_apply']
    rw [activate_with_window _ 0 [] ih.1]
    exact ih

/-- C6: activation with no window builds exactly one window and presents
it; activation with a window present builds none, keeps the windows as they
are and presents the active one; so after any number of activations of the
fresh application, one at least, exactly one window exists and exactly one
was ever built. -/
theorem activate_idempotent :
    (∀ app : GtkApplication, app.windows = [] →
        (text_viewer_application_activate app).windows = [app.created]
          ∧ (text_viewer_application_activate app).created = app.created + 1
          ∧ (text_viewer_application_activate app).presented
              = app.presented ++ [app.created])
      ∧ (∀ (app : GtkApplication) (w : Nat) (ws : List Nat), app.windows = w :: ws →
          (text_viewer_application_activate app).windows = app.windows
            ∧ (text_viewer_application_activate app).created = app.created
            ∧ (text_viewer_application_activate app).presented = app.presented ++ [w])
      ∧ (∀ n : Nat,
          (Nat.iterate text_viewer_application_activate (n + 1)
              GtkApplication.init).windows.length = 1
            ∧ (Nat.iterate text_viewer_application_activate (n + 1)
                GtkApplication.init).created = 1) := by
  refine ⟨?_, ?_, ?_⟩
  · intro app h
    rw [activate_no_window app h]
    exact ⟨rfl, rfl, rfl⟩
  · intro app w ws h
    rw [activate_with_window app w ws h]
    exact ⟨rfl, rfl, rfl⟩
  · intro n
    have := activate_iterate n
    rw [this.1]
    exact ⟨rfl, this.2⟩

/-- C6 at the fresh application, activated once and then once more. -/
theorem activate_idempotent_witness :
    GtkApplication.init.windows = []
      ∧ (text_viewer_application_activate GtkApplication.init).windows = [0]
      ∧ (text_viewer_application_activate
            (text_viewer_application_activate GtkApplication.init)).windows = [0]
      ∧ (text_viewer_application_activate
            (text_viewer_application_activate GtkApplication.init)).presented = [0, 0] :=
  ⟨rfl, (activate_idempotent.1 GtkApplication.init rfl).1, by decide, by decide⟩

/-- C8 refuted: for the empty identifier the constructor does not fail, it
builds a shell; so "fails exactly when the identifier is null or empty" is
false. -/
theorem application_new_empty_id :
    text_viewer_application_new (some "") 0 = some { application_id := "", flags := 0 }
      ∧ ¬ (∀ (application_id : Option String) (flags : Nat),
            text_viewer_application_new application_id flags = none
              ↔ (application_id = none ∨ application_id = some "")) := by
  refine ⟨rfl, ?_⟩
  intro h
  have := (h (some "") 0).mpr (Or.inr rfl)
  simp [text_viewer_application_new] at this

/-- C8 as amended: the constructor fails exactly when the identifier is
NULL; for every other identifier, the empty one too, it builds the shell
from that identifier and the flags. -/
theorem application_new_fails_iff_null (application_id : Option String) (flags : Nat) :
    (text_viewer_application_new application_id flags = none ↔ application_id = none)
      ∧ (∀ id : String, text_viewer_application_new (some id) flags
            = some { application_id := id, flags := flags }) := by
  cases application_id with
  | none => exact ⟨⟨fun _ => rfl, fun _ => rfl⟩, fun _ => rfl⟩
  | some id =>
    refine ⟨⟨fun h => ?_, fun h => ?_⟩, fun _ => rfl⟩
    · simp [text_viewer_application_new] at h
    · cases h

end TextViewer
